import Mathlib

/-!
Shallow embedding of the AvgDeliveryTimeReview analysis scripts.

Numeric columns are modelled over `ℚ` (the scripts' arithmetic is a plain
deterministic formula chain over floats; the spec requires exact arithmetic).
Missing values (pandas `NaN` / `NaT`) are modelled with `Option`: a pandas
`mean` over an empty selection yields `NaN`, modelled as `none`.
-/

/-- Mean of a list of rationals: `none` on the empty list (pandas returns
`NaN` for the mean of an empty series), otherwise sum divided by length. -/
def listMean (l : List ℚ) : Option ℚ :=
  if l.isEmpty then none else some (l.sum / (l.length : ℚ))

/-- A calendar date (year, month, day). -/
structure Date where
  year : Nat
  month : Nat
  day : Nat
deriving DecidableEq, Repr

/-- Days since 1970-01-01 (civil-calendar day-number algorithm); used to model
pandas timestamp subtraction `(d1 - d2).dt.days`. -/
def Date.toEpochDays (d : Date) : Int :=
  let y : Nat := if d.month ≤ 2 then d.year - 1 else d.year
  let era : Nat := y / 400
  let yoe : Nat := y % 400
  let mp : Nat := (d.month + 9) % 12
  let doy : Nat := (153 * mp + 2) / 5 + d.day - 1
  let doe : Nat := yoe * 365 + yoe / 4 - yoe / 100 + doy
  (era * 146097 + doe : Int) - 719468

/-- Number of days in a month (proleptic Gregorian calendar). -/
def daysInMonth (y m : Nat) : Nat :=
  if m = 2 then
    if y % 4 = 0 ∧ (y % 100 ≠ 0 ∨ y % 400 = 0) then 29 else 28
  else if m = 4 ∨ m = 6 ∨ m = 9 ∨ m = 11 then 30
  else 31

/-- Reads a natural number from a non-empty all-digit character list. -/
def digitsToNat : List Char → Option Nat
  | [] => none
  | cs => cs.foldlM (fun acc c => if c.isDigit then some (acc * 10 + (c.toNat - 48)) else none) 0

/-- Splits a character list on the dash character. -/
def splitOnDash (cs : List Char) : List (List Char) :=
  cs.foldr (fun c acc =>
    match acc with
    | [] => if c = '-' then [[], []] else [[c]]
    | g :: gs => if c = '-' then [] :: g :: gs else (c :: g) :: gs) [[]]

/-- Models `pd.to_datetime` on one ISO-formatted cell (`"YYYY-MM-DD"`):
`none` on an unparseable value, matching the `NaT` produced by coercion. -/
def parseDate (s : String) : Option Date :=
  match splitOnDash s.data with
  | [ys, ms, ds] =>
    match digitsToNat ys, digitsToNat ms, digitsToNat ds with
    | some y, some m, some d =>
      if 1 ≤ m ∧ m ≤ 12 ∧ 1 ≤ d ∧ d ≤ daysInMonth y m then some ⟨y, m, d⟩ else none
    | _, _, _ => none
  | _ => none

/-- One shipment record after date preprocessing (schema of spec §3). -/
structure Row where
  shipped_date : Date
  compensated_at_date : Option Date
  delivery_time_business_days : ℚ
  has_marketplace_cs_ticket : ℚ
  total_compensation : Option ℚ
  compensation_reason : Option String
  route : String
  from_sc_code : String
  to_sc_code : String
deriving DecidableEq, Repr

/-- One shipment record as loaded from CSV, date columns still raw strings. -/
structure RawRow where
  shipped_date : String
  compensated_at_date : String
  delivery_time_business_days : ℚ
  has_marketplace_cs_ticket : ℚ
  total_compensation : Option ℚ
  compensation_reason : Option String
  route : String
  from_sc_code : String
  to_sc_code : String
deriving DecidableEq, Repr

/-- Date conversion of one raw record: `shipped_date` is converted strictly
(a parse failure is fatal, the exception propagates), `compensated_at_date`
is converted with `errors="coerce"` (a parse failure becomes `none`). -/
def parseRow (r : RawRow) : Option Row :=
  (parseDate r.shipped_date).map fun d =>
    { shipped_date := d
      compensated_at_date := parseDate r.compensated_at_date
      delivery_time_business_days := r.delivery_time_business_days
      has_marketplace_cs_ticket := r.has_marketplace_cs_ticket
      total_compensation := r.total_compensation
      compensation_reason := r.compensation_reason
      route := r.route
      from_sc_code := r.from_sc_code
      to_sc_code := r.to_sc_code }

/-- `preprocess_data` / the date-conversion part of `load_and_preprocess_data`:
converts the two date columns row by row; any `shipped_date` failure aborts
the whole conversion (`none`), `compensated_at_date` failures are coerced. -/
def preprocess_data : List RawRow → Option (List Row)
  | [] => some []
  | r :: rs =>
    match parseRow r, preprocess_data rs with
    | some pr, some prs => some (pr :: prs)
    | _, _ => none

/-- A dataframe: the shipment rows plus the derived `resolution_time` column,
which is absent until some pass assigns it (`df["resolution_time"] = ...`). -/
structure DataFrame where
  rows : List Row
  resolution_time : Option (List (Option Int))
deriving DecidableEq, Repr

/-- The derived `resolution_time` column:
`(df["compensated_at_date"] - df["shipped_date"]).dt.days` per row
(`none` where the compensation date is absent). -/
def resolutionSeries (rows : List Row) : List (Option Int) :=
  rows.map fun r => r.compensated_at_date.map fun c => c.toEpochDays - r.shipped_date.toEpochDays

namespace DeliveryTime

/-- The metrics mapping produced by `delivery_time.calculate_metrics`. -/
structure Metrics where
  avg_delivery_time : Option ℚ
  on_time_delivery_rate : Option ℚ
  late_delivery_rate : Option ℚ
  cs_ticket_rate : Option ℚ
  compensation_rate : Option ℚ
  avg_compensation_amount : Option ℚ
  count_parcels : Nat
  shipment_weight : ℚ
  resolution_time_avg : Option ℚ
deriving DecidableEq, Repr

/-- Number of rows with a present `total_compensation`
(`len(df.dropna(subset=["total_compensation"]))`). -/
def compensatedCount (rows : List Row) : Nat :=
  (rows.filter fun r => r.total_compensation.isSome).length

/-- `delivery_time.calculate_metrics`: returns the metrics mapping together
with the dataframe as it stands after the call — the function assigns the
derived `resolution_time` column onto its input before averaging it. -/
def calculate_metrics (df : DataFrame) : Metrics × DataFrame :=
  let rows := df.rows
  let total_shipments := rows.length
  let total_compensated_shipments := compensatedCount rows
  let res := resolutionSeries rows
  let m : Metrics :=
    { avg_delivery_time := listMean (rows.map fun r => r.delivery_time_business_days)
      on_time_delivery_rate :=
        (listMean (rows.map fun r => if r.delivery_time_business_days ≤ 7 then (1 : ℚ) else 0)).map
          fun x => x * 100
      late_delivery_rate :=
        (listMean (rows.map fun r => if 7 < r.delivery_time_business_days then (1 : ℚ) else 0)).map
          fun x => x * 100
      cs_ticket_rate :=
        (listMean (rows.map fun r => r.has_marketplace_cs_ticket)).map fun x => x * 100
      compensation_rate :=
        (listMean (rows.map fun r => if r.total_compensation.isSome then (1 : ℚ) else 0)).map
          fun x => x * 100
      avg_compensation_amount := listMean (rows.filterMap fun r => r.total_compensation)
      count_parcels := total_shipments
      shipment_weight :=
        if total_compensated_shipments = 0 then 0
        else ((total_shipments : ℚ) / (total_compensated_shipments : ℚ)) * 100
      resolution_time_avg := listMean ((res.filterMap id).map fun d => (d : ℚ)) }
  (m, { rows := rows, resolution_time := some res })

/-- The compensation-rate computation of `delivery_time.analyze_to_text`
(line 129): the plain fraction, not multiplied by 100. -/
def analyze_to_text_compensation_rate (rows : List Row) : Option ℚ :=
  listMean (rows.map fun r => if r.total_compensation.isSome then (1 : ℚ) else 0)

end DeliveryTime

namespace NewCostPerParcel

/-- `ORIGINAL_COST_PER_PARCEL = 6.81` (EUR). -/
def ORIGINAL_COST_PER_PARCEL : Rat := 681 / 100

/-- The metrics mapping of `new_cost_per_parcel_analysis.calculate_metrics`.
Fields derived from the mean delivery time are `Option`: a `NaN` mean (empty
table) propagates through the whole chain. -/
structure CostMetrics where
  average_volume_increase_per_day : ℚ
  original_avg_delivery_time : Option ℚ
  improved_avg_delivery_time : Option ℚ
  original_total_volume : Nat
  new_total_volume : Option ℚ
  original_total_cost : ℚ
  new_cost_per_parcel : Option ℚ
  volume_increase_percentage : Option ℚ
  delivery_time_reduction : Option ℚ
deriving DecidableEq, Repr

/-- `new_cost_per_parcel_analysis.calculate_metrics`: the cost-projection
formula chain over the `delivery_time_business_days` column. -/
def calculate_metrics (df : List ℚ) (volume_increase_per_day : ℚ) : CostMetrics :=
  let total_shipments := df.length
  match listMean df with
  | none =>
    { average_volume_increase_per_day := volume_increase_per_day
      original_avg_delivery_time := none
      improved_avg_delivery_time := none
      original_total_volume := total_shipments
      new_total_volume := none
      original_total_cost := (total_shipments : ℚ) * ORIGINAL_COST_PER_PARCEL
      new_cost_per_parcel := none
      volume_increase_percentage := none
      delivery_time_reduction := none }
  | some avg_delivery_time =>
    let improved_avg_delivery_time := avg_delivery_time * (90 / 100)
    let delivery_time_reduction := avg_delivery_time - improved_avg_delivery_time
    let volume_increase_percentage := delivery_time_reduction * volume_increase_per_day * 100
    let new_total_volume := (total_shipments : ℚ) * (1 + volume_increase_percentage / 100)
    let original_total_cost := (total_shipments : ℚ) * ORIGINAL_COST_PER_PARCEL
    { average_volume_increase_per_day := volume_increase_per_day
      original_avg_delivery_time := some avg_delivery_time
      improved_avg_delivery_time := some improved_avg_delivery_time
      original_total_volume := total_shipments
      new_total_volume := some new_total_volume
      original_total_cost := original_total_cost
      new_cost_per_parcel := some (original_total_cost / new_total_volume)
      volume_increase_percentage := some volume_increase_percentage
      delivery_time_reduction := some delivery_time_reduction }

/-- The fixed scenario table of `new_cost_per_parcel_analysis.main`. -/
def scenarios : List (String × ℚ) :=
  [("pessimistic", 1 / 100), ("neutral", 5 / 100), ("optimistic", 8 / 100)]

end NewCostPerParcel

/-- Lexicographic comparison of character lists by code point. -/
def lexLe : List Char → List Char → Bool
  | [], _ => true
  | _ :: _, [] => false
  | a :: as, b :: bs => if a < b then true else if b < a then false else lexLe as bs

/-- Lexicographic string comparison (Python string ordering on labels). -/
def strLeB (a b : String) : Bool := lexLe a.data b.data

/-- The order in which pandas lists string group keys
(`groupby(sort=True)`): sorted unique labels. -/
def sortKeys (l : List String) : List String :=
  List.insertionSort (fun a b => strLeB a b = true) l

namespace CompensationAnalysis

/-- `compensation_df = df.dropna(subset=["total_compensation"])`: the
compensated subset of the table. -/
def compensation_df (rows : List Row) : List Row :=
  rows.filter fun r => r.total_compensation.isSome

/-- `total_compensated_transactions = len(compensation_df)`. -/
def total_compensated_transactions (rows : List Row) : Nat :=
  (compensation_df rows).length

/-- `total_compensation = compensation_df["total_compensation"].sum()`. -/
def total_compensation (rows : List Row) : ℚ :=
  ((compensation_df rows).filterMap fun r => r.total_compensation).sum

/-- The distinct `compensation_reason` group keys of the compensated subset,
in sorted order; rows with an absent reason are dropped by `groupby`
(pandas default `dropna=True`, keys sorted by `sort=True`). -/
def reason_keys (rows : List Row) : List String :=
  sortKeys (((compensation_df rows).filterMap fun r => r.compensation_reason).dedup)

/-- The compensated rows in one reason group. -/
def reason_group (rows : List Row) (k : String) : List Row :=
  (compensation_df rows).filter fun r => r.compensation_reason = some k

/-- One row of the `compensation_by_reason` table. -/
structure ReasonEntry where
  compensation_reason : String
  count : Nat
  total_amount : ℚ
  avg_amount : Option ℚ
  transaction_weight : ℚ
  amount_weight : ℚ
deriving DecidableEq, Repr

/-- `compensation_analysis.analyze_compensations`, reason-breakdown part:
group the compensated subset by reason; per reason compute size, total
amount, mean amount, and the two percentage weights (denominators: total
compensated transactions, total compensated amount). Rows appear in group-key
order — no re-sort by count happens in this script. -/
def compensation_by_reason (rows : List Row) : List ReasonEntry :=
  (reason_keys rows).map fun k =>
    let g := reason_group rows k
    let amounts := g.filterMap fun r => r.total_compensation
    { compensation_reason := k
      count := g.length
      total_amount := amounts.sum
      avg_amount := listMean amounts
      transaction_weight := (g.length : ℚ) / (total_compensated_transactions rows : ℚ) * 100
      amount_weight := amounts.sum / total_compensation rows * 100 }

end CompensationAnalysis

namespace SCReview

/-- One row of `sc_review.analyze_compensation_reasons`' `reasons_df`. -/
structure SCReasonEntry where
  compensation_reason : String
  count : Nat
  average_compensation_amount : Option ℚ
deriving DecidableEq, Repr

/-- The distinct reason keys over the WHOLE table (this pass does not filter
to the compensated subset); absent reasons dropped by `groupby`. -/
def sc_reason_keys (rows : List Row) : List String :=
  sortKeys ((rows.filterMap fun r => r.compensation_reason).dedup)

/-- All rows (compensated or not) in one reason group. -/
def sc_group (rows : List Row) (k : String) : List Row :=
  rows.filter fun r => r.compensation_reason = some k

/-- `sc_review.analyze_compensation_reasons`: group the whole table by
reason, count group sizes and mean compensation amounts, then
`sort_values(by="count", ascending=False)`. -/
def analyze_compensation_reasons (rows : List Row) : List SCReasonEntry :=
  List.insertionSort (fun a b => b.count ≤ a.count)
    ((sc_reason_keys rows).map fun k =>
      let g := sc_group rows k
      { compensation_reason := k
        count := g.length
        average_compensation_amount := listMean (g.filterMap fun r => r.total_compensation) })

end SCReview

/-- Zero-pads a month or day number to two digits, as `strftime` does. -/
def pad2 (n : Nat) : String := if n < 10 then "0" ++ toString n else toString n

/-- `shipped_date.dt.strftime("%m-%d")` for one date: the month-day key,
discarding the year. -/
def mmdd (d : Date) : String := pad2 d.month ++ "-" ++ pad2 d.day

namespace Correlation

/-- The distinct month-day keys occurring in the table, sorted
(`groupby("shipped_date_mmdd")` key order). -/
def mmdd_keys (rows : List Row) : List String :=
  sortKeys ((rows.map fun r => mmdd r.shipped_date).dedup)

/-- All of the table's rows sharing one month-day key (records from
different years sharing the month-day land in the same group). -/
def day_group (rows : List Row) (k : String) : List Row :=
  rows.filter fun r => mmdd r.shipped_date = k

/-- One row of the per-day reduced table of `analyze_correlation`. -/
structure DayEntry where
  shipped_date_mmdd : String
  avg_delivery_time : ℚ
  avg_compensation_amount : ℚ
deriving DecidableEq, Repr

/-- One aggregated output row for one month-day key: the group's mean
delivery time and mean compensation amount; `none` when either aggregate is
`NaN`, modelling the subsequent `dropna()`. -/
def day_entry (rows : List Row) (k : String) : Option DayEntry :=
  let g := day_group rows k
  match listMean (g.map fun r => r.delivery_time_business_days),
      listMean (g.filterMap fun r => r.total_compensation) with
  | some a, some b =>
    some { shipped_date_mmdd := k, avg_delivery_time := a, avg_compensation_amount := b }
  | _, _ => none

/-- The per-day reduction of `delivery_time.analyze_correlation`
(lines 102-106): group by month-day, take the mean delivery time and mean
compensation amount per group, and `dropna()` the rows where either
aggregate is `NaN`. -/
def correlation_grouped (rows : List Row) : List DayEntry :=
  (mmdd_keys rows).filterMap (day_entry rows)

end Correlation

/-- A default shipment record, the base for the concrete examples below. -/
def baseRow : Row :=
  { shipped_date := ⟨2023, 1, 15⟩
    compensated_at_date := none
    delivery_time_business_days := 3
    has_marketplace_cs_ticket := 0
    total_compensation := none
    compensation_reason := none
    route := "IT->FR"
    from_sc_code := "LYO1"
    to_sc_code := "PAR1" }

/-- Example: compensated row, reason "Lost", amount 10, shipped 2023-01-15. -/
def exR1 : Row :=
  { baseRow with
    compensated_at_date := some ⟨2023, 1, 20⟩
    has_marketplace_cs_ticket := 1
    total_compensation := some 10
    compensation_reason := some "Lost" }

/-- Example: compensated row from another year sharing month-day 01-15. -/
def exR2 : Row :=
  { baseRow with
    shipped_date := ⟨2024, 1, 15⟩
    delivery_time_business_days := 5
    total_compensation := some 20
    compensation_reason := some "Damaged" }

/-- Example: compensated row whose `compensation_reason` is absent. -/
def exNoReason : Row := { baseRow with total_compensation := some 5 }

/-- Example: compensated rows with reasons "A" (once) and "B" (twice). -/
def exA : Row := { baseRow with total_compensation := some 1, compensation_reason := some "A" }

/-- Example: first "B"-reason compensated row. -/
def exB1 : Row := { baseRow with total_compensation := some 2, compensation_reason := some "B" }

/-- Example: second "B"-reason compensated row. -/
def exB2 : Row := { baseRow with total_compensation := some 3, compensation_reason := some "B" }

/-- A default raw record with parseable dates. -/
def baseRaw : RawRow :=
  { shipped_date := "2023-01-15"
    compensated_at_date := "2023-01-20"
    delivery_time_business_days := 3
    has_marketplace_cs_ticket := 0
    total_compensation := some 10
    compensation_reason := some "Lost"
    route := "IT->FR"
    from_sc_code := "LYO1"
    to_sc_code := "PAR1" }

/-- A raw record with an unparseable `compensated_at_date` cell. -/
def badRaw : RawRow := { baseRaw with compensated_at_date := "not-a-date", total_compensation := none }

/-! ### General lemmas -/

/-- The mean of a non-empty column is its sum over its length. -/
theorem listMean_eq_some (l : List ℚ) (h : l ≠ []) :
    listMean l = some (l.sum / (l.length : ℚ)) := by
  simp [listMean, h]

/-- The mean of an empty column is the no-data marker. -/
theorem listMean_nil : listMean [] = none := rfl

/-- `listMean` is defined exactly on non-empty columns. -/
theorem listMean_eq_none_iff (l : List ℚ) : listMean l = none ↔ l = [] := by
  cases l <;> simp [listMean]

/-- Summing the constant-1 column counts the rows. -/
theorem sum_map_one {α : Type} (l : List α) :
    (l.map fun _ => (1 : ℚ)).sum = (l.length : ℚ) := by
  induction l with
  | nil => simp
  | cons x xs ih => simp [ih]; ring

/-- Summing a 0/1 indicator column counts the rows satisfying the predicate. -/
theorem sum_indicator {α : Type} (p : α → Bool) (l : List α) :
    (l.map fun x => if p x then (1 : ℚ) else 0).sum = ((l.filter p).length : ℚ) := by
  induction l with
  | nil => simp
  | cons x xs ih => cases hp : p x <;> simp [List.filter_cons, hp, ih] <;> ring

/-- A filter and its complement split a column sum. -/
theorem sum_split {α : Type} (p : α → Bool) (g : α → ℚ) (l : List α) :
    ((l.filter p).map g).sum + ((l.filter fun x => ! p x).map g).sum = (l.map g).sum := by
  induction l with
  | nil => simp
  | cons x xs ih => cases hp : p x <;> simp [List.filter_cons, hp] <;> linarith [ih]

/-- Partition lemma: grouping a list by a key function and summing a column
group by group recovers the whole column's sum, provided the key list is
duplicate-free and covers every element. -/
theorem sum_over_groups {α β : Type} [DecidableEq β] (f : α → Option β) (g : α → ℚ) :
    ∀ (keys : List β) (l : List α), keys.Nodup →
      (∀ x ∈ l, ∃ k ∈ keys, f x = some k) →
      (keys.map fun k => ((l.filter fun x => f x = some k).map g).sum).sum = (l.map g).sum := by
  intro keys
  induction keys with
  | nil =>
    intro l _ hcov
    cases l with
    | nil => simp
    | cons x xs =>
      obtain ⟨k, hk, _⟩ := hcov x (by simp)
      exact absurd hk (by simp)
  | cons k ks ih =>
    intro l hnd hcov
    have hk_not_mem : k ∉ ks := (List.nodup_cons.mp hnd).1
    have hnd' : ks.Nodup := (List.nodup_cons.mp hnd).2
    set l2 := l.filter fun x => ! decide (f x = some k) with hl2
    have hgroups : ∀ k' ∈ ks,
        (l2.filter fun x => f x = some k') = l.filter fun x => f x = some k' := by
      intro k' hk'
      rw [hl2, List.filter_filter]
      apply List.filter_congr
      intro x _
      by_cases hfx : f x = some k'
      · have hne : k' ≠ k := fun h => hk_not_mem (h ▸ hk')
        simp [hfx, hne]
      · simp [hfx]
    have hcov2 : ∀ x ∈ l2, ∃ k' ∈ ks, f x = some k' := by
      intro x hx
      rw [hl2, List.mem_filter] at hx
      obtain ⟨hk', hne⟩ := hx
      obtain ⟨k', hk'mem, hfx⟩ := hcov x hk'
      rcases List.mem_cons.mp hk'mem with h | h
      · exfalso
        simp only [Bool.not_eq_true', decide_eq_false_iff_not] at hne
        exact hne (h ▸ hfx)
      · exact ⟨k', h, hfx⟩
    have hmapeq : (ks.map fun k' => ((l.filter fun x => f x = some k').map g).sum)
        = ks.map fun k' => ((l2.filter fun x => f x = some k').map g).sum := by
      apply List.map_congr_left
      intro k' hk'
      rw [hgroups k' hk']
    calc ((k :: ks).map fun k' => ((l.filter fun x => f x = some k').map g).sum).sum
        = ((l.filter fun x => f x = some k).map g).sum
          + (ks.map fun k' => ((l.filter fun x => f x = some k').map g).sum).sum := by
          simp
      _ = ((l.filter fun x => f x = some k).map g).sum
          + (ks.map fun k' => ((l2.filter fun x => f x = some k').map g).sum).sum := by
          rw [hmapeq]
      _ = ((l.filter fun x => f x = some k).map g).sum + (l2.map g).sum := by
          rw [ih l2 hnd' hcov2]
      _ = (l.map g).sum := by
          rw [hl2]
          exact sum_split (fun x => decide (f x = some k)) g l
  
/-- Membership in the sorted key list is membership in the underlying list. -/
theorem mem_sortKeys (l : List String) (a : String) : a ∈ sortKeys l ↔ a ∈ l :=
  (List.perm_insertionSort (fun a b => strLeB a b = true) l).mem_iff

/-- Sorting preserves freedom from duplicates. -/
theorem nodup_sortKeys (l : List String) (h : l.Nodup) : (sortKeys l).Nodup :=
  ((List.perm_insertionSort (fun a b => strLeB a b = true) l).nodup_iff).mpr h

/-! ### C2: shipment-weight guard -/

/-- C2: for every shipment table, the shipment-weight metric equals
(total rows ÷ compensated rows) × 100 when the partition has at least one
compensated row, and is exactly 0 when it has zero compensated rows; the
computation is total (never raises a division fault). -/
theorem shipment_weight_div_guard (df : DataFrame) :
    (DeliveryTime.compensatedCount df.rows ≠ 0 →
      (DeliveryTime.calculate_metrics df).1.shipment_weight
        = ((df.rows.length : ℚ) / (DeliveryTime.compensatedCount df.rows : ℚ)) * 100)
    ∧ (DeliveryTime.compensatedCount df.rows = 0 →
      (DeliveryTime.calculate_metrics df).1.shipment_weight = 0) := by
  constructor <;> intro h <;> simp [DeliveryTime.calculate_metrics, h]

/-- C2 witness: a table with two rows, one compensated, has shipment weight
(2 ÷ 1) × 100 = 200; the empty table has shipment weight 0. -/
theorem shipment_weight_div_guard_witness :
    DeliveryTime.compensatedCount [exR1, baseRow] ≠ 0
    ∧ (DeliveryTime.calculate_metrics ⟨[exR1, baseRow], none⟩).1.shipment_weight = 200
    ∧ DeliveryTime.compensatedCount ([] : List Row) = 0
    ∧ (DeliveryTime.calculate_metrics ⟨[], none⟩).1.shipment_weight = 0 := by
  refine ⟨by decide, ?_, by decide, (shipment_weight_div_guard ⟨[], none⟩).2 (by decide)⟩
  rw [(shipment_weight_div_guard ⟨[exR1, baseRow], none⟩).1 (by decide)]
  norm_num [DeliveryTime.compensatedCount, List.filter_cons, exR1, baseRow]

/-! ### C3: the Metrics Aggregator mutates its input -/

/-- C3 counterexample: computing the metrics does not leave the input table
unchanged — the call assigns a new `resolution_time` column onto it. -/
theorem calculate_metrics_mutates :
    (DeliveryTime.calculate_metrics ⟨[exR1], none⟩).2 ≠ ⟨[exR1], none⟩ := by decide

/-- C3 amended: computing the metrics adds (or overwrites) the derived
`resolution_time` column on the input table, but modifies no shipment rows
and no other columns. -/
theorem calculate_metrics_frame (df : DataFrame) :
    (DeliveryTime.calculate_metrics df).2.rows = df.rows
    ∧ (DeliveryTime.calculate_metrics df).2.resolution_time
        = some (resolutionSeries df.rows) :=
  ⟨rfl, rfl⟩

/-! ### C4: compensation rate -/

/-- C4 counterexample: in `calculate_metrics` the stored compensation rate is
a percentage — on a one-row fully compensated table it is 100, which is
neither in [0,1] nor equal to the fraction 1/1. -/
theorem compensation_rate_percent_cex :
    (DeliveryTime.calculate_metrics ⟨[exR1], none⟩).1.compensation_rate = some 100
    ∧ ¬ ((100 : ℚ) ≤ 1) := by
  constructor
  · norm_num [DeliveryTime.calculate_metrics, listMean, exR1, baseRow]
  · norm_num

/-- C4 amended: for every non-empty shipment table the underlying fraction
(compensated rows ÷ total rows) is in [0,1]; `analyze_to_text` stores exactly
this fraction, while `calculate_metrics` stores it multiplied by 100. -/
theorem compensation_rate_fraction (rows : List Row) (h : rows ≠ []) :
    DeliveryTime.analyze_to_text_compensation_rate rows
      = some ((DeliveryTime.compensatedCount rows : ℚ) / (rows.length : ℚ))
    ∧ 0 ≤ ((DeliveryTime.compensatedCount rows : ℚ) / (rows.length : ℚ))
    ∧ ((DeliveryTime.compensatedCount rows : ℚ) / (rows.length : ℚ)) ≤ 1
    ∧ ∀ df : DataFrame, df.rows = rows →
        (DeliveryTime.calculate_metrics df).1.compensation_rate
          = some (((DeliveryTime.compensatedCount rows : ℚ) / (rows.length : ℚ)) * 100) := by
  have hmap : (rows.map fun r => if r.total_compensation.isSome then (1 : ℚ) else 0) ≠ [] := by
    simpa using h
  have hmean : listMean (rows.map fun r => if r.total_compensation.isSome then (1 : ℚ) else 0)
      = some ((DeliveryTime.compensatedCount rows : ℚ) / (rows.length : ℚ)) := by
    rw [listMean_eq_some _ hmap, sum_indicator, List.length_map]
    rfl
  have hlen : 0 < (rows.length : ℚ) := by
    have : 0 < rows.length := List.length_pos.mpr h
    exact_mod_cast this
  refine ⟨?_, ?_, ?_, ?_⟩
  · rw [DeliveryTime.analyze_to_text_compensation_rate, hmean]
  · positivity
  · rw [div_le_one hlen]
    exact_mod_cast List.length_filter_le _ rows
  · intro df hdf
    show (listMean (df.rows.map fun r => if r.total_compensation.isSome then (1 : ℚ) else 0)).map
        (fun x => x * 100) = _
    rw [hdf, hmean]
    rfl

/-- C4 witness: the amended statement evaluated on a two-row table with one
compensated row (fraction 1/2). -/
theorem compensation_rate_fraction_witness :
    ([exR1, baseRow] : List Row) ≠ []
    ∧ (DeliveryTime.analyze_to_text_compensation_rate [exR1, baseRow]
        = some ((DeliveryTime.compensatedCount [exR1, baseRow] : ℚ)
            / (([exR1, baseRow] : List Row).length : ℚ))
      ∧ 0 ≤ ((DeliveryTime.compensatedCount [exR1, baseRow] : ℚ)
            / (([exR1, baseRow] : List Row).length : ℚ))
      ∧ ((DeliveryTime.compensatedCount [exR1, baseRow] : ℚ)
            / (([exR1, baseRow] : List Row).length : ℚ)) ≤ 1
      ∧ ∀ df : DataFrame, df.rows = [exR1, baseRow] →
          (DeliveryTime.calculate_metrics df).1.compensation_rate
            = some (((DeliveryTime.compensatedCount [exR1, baseRow] : ℚ)
                / (([exR1, baseRow] : List Row).length : ℚ)) * 100)) :=
  ⟨by decide, compensation_rate_fraction [exR1, baseRow] (by decide)⟩

/-! ### C9: empty partition yields no-data markers -/

/-- C9: on a partition with zero rows every mean and rate metric is the
no-data marker `none`, and the (total) computation raises no error. -/
theorem metrics_empty_partition (df : DataFrame) (h : df.rows = []) :
    (DeliveryTime.calculate_metrics df).1.avg_delivery_time = none
    ∧ (DeliveryTime.calculate_metrics df).1.on_time_delivery_rate = none
    ∧ (DeliveryTime.calculate_metrics df).1.late_delivery_rate = none
    ∧ (DeliveryTime.calculate_metrics df).1.cs_ticket_rate = none
    ∧ (DeliveryTime.calculate_metrics df).1.compensation_rate = none
    ∧ (DeliveryTime.calculate_metrics df).1.avg_compensation_amount = none
    ∧ (DeliveryTime.calculate_metrics df).1.resolution_time_avg = none := by
  simp [DeliveryTime.calculate_metrics, h, listMean, resolutionSeries]

/-- C9 witness: the empty dataframe. -/
theorem metrics_empty_partition_witness :
    (⟨[], none⟩ : DataFrame).rows = []
    ∧ ((DeliveryTime.calculate_metrics ⟨[], none⟩).1.avg_delivery_time = none
      ∧ (DeliveryTime.calculate_metrics ⟨[], none⟩).1.on_time_delivery_rate = none
      ∧ (DeliveryTime.calculate_metrics ⟨[], none⟩).1.late_delivery_rate = none
      ∧ (DeliveryTime.calculate_metrics ⟨[], none⟩).1.cs_ticket_rate = none
      ∧ (DeliveryTime.calculate_metrics ⟨[], none⟩).1.compensation_rate = none
      ∧ (DeliveryTime.calculate_metrics ⟨[], none⟩).1.avg_compensation_amount = none
      ∧ (DeliveryTime.calculate_metrics ⟨[], none⟩).1.resolution_time_avg = none) :=
  ⟨rfl, metrics_empty_partition ⟨[], none⟩ rfl⟩

/-! ### C1: the cost-projection formula chain -/

/-- C1: on every non-empty table and every fixed scenario rate, the
cost-projection pass computes exactly the spec's formula chain
(improved = 0.9 × avg, reduction = avg − improved, percentage =
reduction × r × 100, new volume = rows × (1 + percentage/100), original cost
= rows × 6.81, new cost = original cost ÷ new volume), and recomputing the
new total volume from the stored percentage and row count gives the stored
value back (round-trip). -/
theorem cost_projection_chain (df : List ℚ) (r : ℚ) (hne : df ≠ [])
    (hr : ∃ s, (s, r) ∈ NewCostPerParcel.scenarios) :
    ∃ a : ℚ,
      (NewCostPerParcel.calculate_metrics df r).original_avg_delivery_time = some a
      ∧ (NewCostPerParcel.calculate_metrics df r).improved_avg_delivery_time
          = some ((9 / 10) * a)
      ∧ (NewCostPerParcel.calculate_metrics df r).delivery_time_reduction
          = some (a - (9 / 10) * a)
      ∧ (NewCostPerParcel.calculate_metrics df r).volume_increase_percentage
          = some ((a - (9 / 10) * a) * r * 100)
      ∧ (NewCostPerParcel.calculate_metrics df r).original_total_volume = df.length
      ∧ (NewCostPerParcel.calculate_metrics df r).original_total_cost
          = (df.length : ℚ) * (681 / 100)
      ∧ (NewCostPerParcel.calculate_metrics df r).new_total_volume
          = some ((df.length : ℚ) * (1 + ((a - (9 / 10) * a) * r * 100) / 100))
      ∧ (∀ v, (NewCostPerParcel.calculate_metrics df r).new_total_volume = some v →
          (NewCostPerParcel.calculate_metrics df r).new_cost_per_parcel
            = some (((df.length : ℚ) * (681 / 100)) / v))
      ∧ (∀ p v, (NewCostPerParcel.calculate_metrics df r).volume_increase_percentage = some p →
          (NewCostPerParcel.calculate_metrics df r).new_total_volume = some v →
          v = ((NewCostPerParcel.calculate_metrics df r).original_total_volume : ℚ)
            * (1 + p / 100)) := by
  obtain ⟨s, hs⟩ := hr
  have hmean := listMean_eq_some df hne
  refine ⟨df.sum / (df.length : ℚ), ?_⟩
  simp only [NewCostPerParcel.calculate_metrics, NewCostPerParcel.ORIGINAL_COST_PER_PARCEL, hmean]
  refine ⟨trivial, by rw [Option.some_inj]; ring, by rw [Option.some_inj]; ring,
    by rw [Option.some_inj]; ring, trivial, trivial, by rw [Option.some_inj]; ring, ?_, ?_⟩
  · intro v hv
    rw [Option.some_inj] at hv
    rw [Option.some_inj, ← hv]
  · intro p v hp hv
    rw [Option.some_inj] at hp hv
    rw [← hp, ← hv]

/-- C1 witness: the chain evaluated on the table [2, 4] under the neutral
scenario rate 0.05. -/
theorem cost_projection_chain_witness :
    ([2, 4] : List ℚ) ≠ []
    ∧ (∃ s, (s, (5 / 100 : ℚ)) ∈ NewCostPerParcel.scenarios)
    ∧ (∃ a : ℚ,
      (NewCostPerParcel.calculate_metrics [2, 4] (5 / 100)).original_avg_delivery_time = some a
      ∧ (NewCostPerParcel.calculate_metrics [2, 4] (5 / 100)).improved_avg_delivery_time
          = some ((9 / 10) * a)
      ∧ (NewCostPerParcel.calculate_metrics [2, 4] (5 / 100)).delivery_time_reduction
          = some (a - (9 / 10) * a)
      ∧ (NewCostPerParcel.calculate_metrics [2, 4] (5 / 100)).volume_increase_percentage
          = some ((a - (9 / 10) * a) * (5 / 100) * 100)
      ∧ (NewCostPerParcel.calculate_metrics [2, 4] (5 / 100)).original_total_volume
          = ([2, 4] : List ℚ).length
      ∧ (NewCostPerParcel.calculate_metrics [2, 4] (5 / 100)).original_total_cost
          = (([2, 4] : List ℚ).length : ℚ) * (681 / 100)
      ∧ (NewCostPerParcel.calculate_metrics [2, 4] (5 / 100)).new_total_volume
          = some ((([2, 4] : List ℚ).length : ℚ)
              * (1 + ((a - (9 / 10) * a) * (5 / 100) * 100) / 100))
      ∧ (∀ v, (NewCostPerParcel.calculate_metrics [2, 4] (5 / 100)).new_total_volume = some v →
          (NewCostPerParcel.calculate_metrics [2, 4] (5 / 100)).new_cost_per_parcel
            = some (((([2, 4] : List ℚ).length : ℚ) * (681 / 100)) / v))
      ∧ (∀ p v,
          (NewCostPerParcel.calculate_metrics [2, 4] (5 / 100)).volume_increase_percentage
            = some p →
          (NewCostPerParcel.calculate_metrics [2, 4] (5 / 100)).new_total_volume = some v →
          v = ((NewCostPerParcel.calculate_metrics [2, 4] (5 / 100)).original_total_volume : ℚ)
            * (1 + p / 100))) :=
  ⟨by simp, ⟨"neutral", by simp [NewCostPerParcel.scenarios]⟩,
    cost_projection_chain [2, 4] (5 / 100) (by simp)
      ⟨"neutral", by simp [NewCostPerParcel.scenarios]⟩⟩

/-! ### C10: monotonicity of the cost projection -/

/-- C10: on a non-empty table with nonnegative mean delivery time and a
nonnegative scenario rate, the projection improves: improved avg ≤ avg,
volume increase percentage ≥ 0, new total volume ≥ original row count, and
new cost per parcel ≤ the original 6.81. -/
theorem cost_projection_bounds (df : List ℚ) (r : ℚ) (hne : df ≠ [])
    (havg : ∀ a, listMean df = some a → 0 ≤ a) (hr : 0 ≤ r) :
    ∃ a : ℚ,
      (NewCostPerParcel.calculate_metrics df r).original_avg_delivery_time = some a
      ∧ (NewCostPerParcel.calculate_metrics df r).improved_avg_delivery_time
          = some (a * (90 / 100))
      ∧ a * (90 / 100) ≤ a
      ∧ (∀ p, (NewCostPerParcel.calculate_metrics df r).volume_increase_percentage = some p →
          0 ≤ p)
      ∧ (∀ v, (NewCostPerParcel.calculate_metrics df r).new_total_volume = some v →
          (((NewCostPerParcel.calculate_metrics df r).original_total_volume : ℚ)) ≤ v)
      ∧ (∀ c, (NewCostPerParcel.calculate_metrics df r).new_cost_per_parcel = some c →
          c ≤ 681 / 100) := by
  have hmean := listMean_eq_some df hne
  set a := df.sum / (df.length : ℚ) with ha_def
  have ha : 0 ≤ a := havg a hmean
  have hn : (1 : ℚ) ≤ (df.length : ℚ) := by
    have : 1 ≤ df.length := List.length_pos.mpr hne
    exact_mod_cast this
  have har : 0 ≤ a * r := mul_nonneg ha hr
  refine ⟨a, ?_⟩
  simp only [NewCostPerParcel.calculate_metrics, NewCostPerParcel.ORIGINAL_COST_PER_PARCEL, hmean]
  refine ⟨trivial, trivial, by nlinarith, ?_, ?_, ?_⟩
  · intro p hp
    rw [Option.some_inj] at hp
    nlinarith
  · intro v hv
    rw [Option.some_inj] at hv
    nlinarith
  · intro c hc
    rw [Option.some_inj] at hc
    have hnr : 0 ≤ (df.length : ℚ) * (a * r) :=
      mul_nonneg (by linarith) har
    have hv : (0 : ℚ) < (df.length : ℚ) * (1 + (a - a * (90 / 100)) * r * 100 / 100) := by
      nlinarith
    rw [← hc, div_le_iff hv]
    nlinarith

/-! ### C8: unparseable compensated_at_date cells are coerced, never fatal -/

/-- C8: as long as every `shipped_date` parses (the strictly-converted
column), preprocessing always succeeds — it never fails on the
`compensated_at_date` column — and each output row is obtained from its own
input row alone, its `compensated_at_date` being the coerced parse of that
row's cell (`none`, the absent marker, when unparseable); all other rows are
unaffected. -/
theorem coerce_compensated_date :
    ∀ (l : List RawRow), (∀ r ∈ l, (parseDate r.shipped_date).isSome) →
    ∃ rows, preprocess_data l = some rows ∧ rows.length = l.length
      ∧ ∀ i (hl : i < l.length) (hr : i < rows.length),
          parseRow (l.get ⟨i, hl⟩) = some (rows.get ⟨i, hr⟩)
          ∧ (rows.get ⟨i, hr⟩).compensated_at_date
              = parseDate ((l.get ⟨i, hl⟩).compensated_at_date)
  | [], _ => ⟨[], rfl, rfl, fun i hl => absurd hl (by simp)⟩
  | r :: rs, hship => by
    obtain ⟨d, hd⟩ := Option.isSome_iff_exists.mp (hship r (by simp))
    obtain ⟨rows', h1, h2, h3⟩ :=
      coerce_compensated_date rs (fun x hx => hship x (by simp [hx]))
    obtain ⟨pr, hpr, hprc⟩ :
        ∃ pr, parseRow r = some pr
          ∧ pr.compensated_at_date = parseDate r.compensated_at_date := by
      rw [parseRow, hd]
      exact ⟨_, rfl, rfl⟩
    refine ⟨pr :: rows', ?_, by simp [h2], ?_⟩
    · rw [preprocess_data, hpr, h1]
    · intro i hl hr
      cases i with
      | zero => exact ⟨hpr, hprc⟩
      | succ n =>
        exact h3 n (by simpa using hl) (by simpa using hr)

/-- C8 witness: a two-row raw table whose second row has the unparseable
cell "not-a-date"; preprocessing succeeds and coerces it to the absent
marker. -/
theorem coerce_compensated_date_witness :
    (∀ r ∈ [baseRaw, badRaw], (parseDate r.shipped_date).isSome)
    ∧ (∃ rows, preprocess_data [baseRaw, badRaw] = some rows
        ∧ rows.length = ([baseRaw, badRaw] : List RawRow).length
        ∧ ∀ i (hl : i < ([baseRaw, badRaw] : List RawRow).length) (hr : i < rows.length),
            parseRow (([baseRaw, badRaw] : List RawRow).get ⟨i, hl⟩) = some (rows.get ⟨i, hr⟩)
            ∧ (rows.get ⟨i, hr⟩).compensated_at_date
                = parseDate ((([baseRaw, badRaw] : List RawRow).get ⟨i, hl⟩).compensated_at_date))
    ∧ parseDate badRaw.compensated_at_date = none
    ∧ parseDate baseRaw.compensated_at_date = some ⟨2023, 1, 20⟩ :=
  ⟨by decide, coerce_compensated_date [baseRaw, badRaw] (by decide), by decide, by decide⟩

/-! ### C6: the per-day (month-day) reduction of the Correlation Helper -/

/-- Over a key list whose groups are all non-empty, the reduction keeps
exactly the keys whose group contains a compensated row. -/
theorem correlation_keys_aux (rows : List Row) :
    ∀ ks : List String, (∀ k ∈ ks, Correlation.day_group rows k ≠ []) →
      ((ks.filterMap (Correlation.day_entry rows)).map fun e => e.shipped_date_mmdd)
        = ks.filter fun k =>
            (Correlation.day_group rows k).any fun r => r.total_compensation.isSome := by
  intro ks
  induction ks with
  | nil => intro _; rfl
  | cons k ks ih =>
    intro h
    have hg : Correlation.day_group rows k ≠ [] := h k (by simp)
    have hdel : (Correlation.day_group rows k).map
        (fun r => r.delivery_time_business_days) ≠ [] := by
      simpa using hg
    obtain ⟨a, ha⟩ : ∃ a, listMean ((Correlation.day_group rows k).map
        fun r => r.delivery_time_business_days) = some a :=
      ⟨_, listMean_eq_some _ hdel⟩
    by_cases hany : ((Correlation.day_group rows k).any
        fun r => r.total_compensation.isSome) = true
    · have hcomp : (Correlation.day_group rows k).filterMap
          (fun r => r.total_compensation) ≠ [] := by
        rw [Ne, List.filterMap_eq_nil]
        obtain ⟨r, hr, hsome⟩ := List.any_eq_true.mp hany
        intro hall
        rw [hall r hr] at hsome
        simp at hsome
      obtain ⟨b, hb⟩ : ∃ b, listMean ((Correlation.day_group rows k).filterMap
          fun r => r.total_compensation) = some b :=
        ⟨_, listMean_eq_some _ hcomp⟩
      rw [List.filterMap_cons, List.filter_cons]
      simp only [hany, if_pos]
      rw [show Correlation.day_entry rows k
          = some { shipped_date_mmdd := k, avg_delivery_time := a,
                   avg_compensation_amount := b } by
        rw [Correlation.day_entry]; rw [ha, hb]]
      rw [List.map_cons, ih fun x hx => h x (by simp [hx])]
    · have hall : ∀ r ∈ Correlation.day_group rows k, r.total_compensation = none := by
        intro r hr
        by_contra hne
        exact hany (List.any_eq_true.mpr ⟨r, hr, by simpa [Option.isSome_iff_ne_none] using hne⟩)
      have hcomp : (Correlation.day_group rows k).filterMap
          (fun r => r.total_compensation) = [] :=
        List.filterMap_eq_nil.mpr hall
      rw [List.filterMap_cons, List.filter_cons]
      simp only [hany, if_neg, Bool.false_eq_true, not_false_iff]
      rw [show Correlation.day_entry rows k = none by
        rw [Correlation.day_entry]; rw [ha, hcomp, listMean_nil]]
      exact ih fun x hx => h x (by simp [hx])

/-- Every month-day key occurring in the table has a non-empty group. -/
theorem mmdd_keys_group_ne_nil (rows : List Row) :
    ∀ k ∈ Correlation.mmdd_keys rows, Correlation.day_group rows k ≠ [] := by
  intro k hk
  rw [Correlation.mmdd_keys] at hk
  rw [mem_sortKeys, List.mem_dedup] at hk
  obtain ⟨r, hr, hmm⟩ := List.mem_map.mp hk
  have : r ∈ Correlation.day_group rows k :=
    List.mem_filter.mpr ⟨hr, by simp [hmm]⟩
  exact List.ne_nil_of_mem this

/-- C6: the Correlation Helper's reduction produces exactly one output row
per distinct month-day key occurring in the table (year ignored), dropping
exactly the keys whose group has no compensated row (undefined mean), and
each kept row's two means are the means over ALL of the table's rows sharing
that month-day — records from different years are merged. -/
theorem correlation_reduction (rows : List Row) :
    ((Correlation.correlation_grouped rows).map fun e => e.shipped_date_mmdd)
      = (Correlation.mmdd_keys rows).filter
          (fun k => (Correlation.day_group rows k).any fun r => r.total_compensation.isSome)
    ∧ ((Correlation.correlation_grouped rows).map fun e => e.shipped_date_mmdd).Nodup
    ∧ ∀ e ∈ Correlation.correlation_grouped rows,
        listMean ((Correlation.day_group rows e.shipped_date_mmdd).map
            fun r => r.delivery_time_business_days) = some e.avg_delivery_time
        ∧ listMean ((Correlation.day_group rows e.shipped_date_mmdd).filterMap
            fun r => r.total_compensation) = some e.avg_compensation_amount := by
  have hkeys := correlation_keys_aux rows (Correlation.mmdd_keys rows)
    (mmdd_keys_group_ne_nil rows)
  refine ⟨hkeys, ?_, ?_⟩
  · rw [show Correlation.correlation_grouped rows
        = (Correlation.mmdd_keys rows).filterMap (Correlation.day_entry rows) from rfl, hkeys]
    exact (nodup_sortKeys _ (List.nodup_dedup _)).filter _
  · intro e he
    rw [show Correlation.correlation_grouped rows
        = (Correlation.mmdd_keys rows).filterMap (Correlation.day_entry rows) from rfl] at he
    obtain ⟨k, _, hstep⟩ := List.mem_filterMap.mp he
    rw [Correlation.day_entry] at hstep
    rcases h1 : listMean ((Correlation.day_group rows k).map
        fun r => r.delivery_time_business_days) with _ | a
    · rw [h1] at hstep; simp at hstep
    rcases h2 : listMean ((Correlation.day_group rows k).filterMap
        fun r => r.total_compensation) with _ | b
    · rw [h1, h2] at hstep; simp at hstep
    rw [h1, h2] at hstep
    simp only [Option.some_inj] at hstep
    rw [← hstep]
    exact ⟨h1, h2⟩

/-- C6 witness: two rows sharing month-day "01-15", one from 2023 and one
from 2024, collapse to a single grouped row whose means (4 and 15) are taken
across both. -/
theorem correlation_reduction_witness :
    Correlation.correlation_grouped [exR1, exR2] = [⟨"01-15", 4, 15⟩]
    ∧ exR1.shipped_date.year = 2023 ∧ exR2.shipped_date.year = 2024
    ∧ mmdd exR1.shipped_date = "01-15" ∧ mmdd exR2.shipped_date = "01-15"
    ∧ listMean ((Correlation.day_group [exR1, exR2] "01-15").map
        fun r => r.delivery_time_business_days) = some 4
    ∧ listMean ((Correlation.day_group [exR1, exR2] "01-15").filterMap
        fun r => r.total_compensation) = some 15 := by
  have hfirst : Correlation.correlation_grouped [exR1, exR2] = [⟨"01-15", 4, 15⟩] := by
    have h23 : mmdd ⟨2023, 1, 15⟩ = "01-15" := by decide
    have h24 : mmdd ⟨2024, 1, 15⟩ = "01-15" := by decide
    norm_num [Correlation.correlation_grouped, Correlation.day_entry, Correlation.mmdd_keys,
      Correlation.day_group, sortKeys, listMean, List.filterMap_cons, List.filter_cons,
      List.cons_ne_nil, Option.some_ne_none, reduceCtorEq, exR1, exR2, baseRow, h23, h24]
  have hmem : (⟨"01-15", 4, 15⟩ : Correlation.DayEntry)
      ∈ Correlation.correlation_grouped [exR1, exR2] := by
    rw [hfirst]; simp
  have hvals := (correlation_reduction [exR1, exR2]).2.2 _ hmem
  exact ⟨hfirst, rfl, rfl, by decide, by decide, hvals.1, hvals.2⟩

/-- C10 witness: the bounds evaluated on the table [2, 4] (mean 3 ≥ 0) with
the neutral rate 0.05 ≥ 0. -/
theorem cost_projection_bounds_witness :
    ([2, 4] : List ℚ) ≠ []
    ∧ (∀ a, listMean [2, 4] = some a → 0 ≤ a)
    ∧ (0 : ℚ) ≤ 5 / 100
    ∧ (∃ a : ℚ,
      (NewCostPerParcel.calculate_metrics [2, 4] (5 / 100)).original_avg_delivery_time = some a
      ∧ (NewCostPerParcel.calculate_metrics [2, 4] (5 / 100)).improved_avg_delivery_time
          = some (a * (90 / 100))
      ∧ a * (90 / 100) ≤ a
      ∧ (∀ p, (NewCostPerParcel.calculate_metrics [2, 4] (5 / 100)).volume_increase_percentage
            = some p → 0 ≤ p)
      ∧ (∀ v, (NewCostPerParcel.calculate_metrics [2, 4] (5 / 100)).new_total_volume = some v →
          (((NewCostPerParcel.calculate_metrics [2, 4] (5 / 100)).original_total_volume : ℚ)) ≤ v)
      ∧ (∀ c, (NewCostPerParcel.calculate_metrics [2, 4] (5 / 100)).new_cost_per_parcel = some c →
          c ≤ 681 / 100)) := by
  have hne : ([2, 4] : List ℚ) ≠ [] := by simp
  have hmean : listMean [2, 4] = some 3 := by norm_num [listMean]
  have havg : ∀ a, listMean [2, 4] = some a → 0 ≤ a := by
    intro a ha
    rw [hmean, Option.some_inj] at ha
    rw [← ha]
    norm_num
  have hr : (0 : ℚ) ≤ 5 / 100 := by norm_num
  exact ⟨hne, havg, hr, cost_projection_bounds [2, 4] (5 / 100) hne havg hr⟩

/-! ### C5: the two weight columns of the reason breakdown -/

/-- Dividing and scaling termwise commutes with the list sum. -/
theorem sum_map_div_mul {α : Type} (l : List α) (f : α → ℚ) (c d : ℚ) :
    (l.map fun x => f x / c * d).sum = (l.map f).sum / c * d := by
  induction l with
  | nil => simp
  | cons x xs ih => simp [ih]; ring

/-- Summing a present-or-absent column: absent cells contribute 0. -/
theorem sum_filterMap_getD {α : Type} (tc : α → Option ℚ) (l : List α) :
    (l.filterMap tc).sum = (l.map fun x => (tc x).getD 0).sum := by
  induction l with
  | nil => simp
  | cons x xs ih => cases htc : tc x <;> simp [List.filterMap_cons, htc, ih]

/-- A fully present optional column has as many present cells as rows. -/
theorem filterMap_length_of_isSome {α β : Type} (tc : α → Option β) (l : List α)
    (h : ∀ x ∈ l, (tc x).isSome) : (l.filterMap tc).length = l.length := by
  induction l with
  | nil => rfl
  | cons x xs ih =>
    obtain ⟨b, hb⟩ := Option.isSome_iff_exists.mp (h x (by simp))
    rw [List.filterMap_cons, hb]
    simp [ih fun y hy => h y (by simp [hy])]

/-- Every compensated row has a present compensation amount. -/
theorem compensation_df_isSome (rows : List Row) :
    ∀ r ∈ CompensationAnalysis.compensation_df rows, r.total_compensation.isSome := by
  intro r hr
  rw [CompensationAnalysis.compensation_df] at hr
  exact (List.mem_filter.mp hr).2

/-- The sorted distinct reason keys are duplicate-free. -/
theorem reason_keys_nodup (rows : List Row) : (CompensationAnalysis.reason_keys rows).Nodup :=
  nodup_sortKeys _ (List.nodup_dedup _)

/-- Every compensated row with a present reason is covered by a key. -/
theorem reason_keys_cover (rows : List Row)
    (h2 : ∀ r ∈ CompensationAnalysis.compensation_df rows, r.compensation_reason.isSome) :
    ∀ r ∈ CompensationAnalysis.compensation_df rows,
      ∃ k ∈ CompensationAnalysis.reason_keys rows, r.compensation_reason = some k := by
  intro r hr
  obtain ⟨k, hk⟩ := Option.isSome_iff_exists.mp (h2 r hr)
  refine ⟨k, ?_, hk⟩
  rw [CompensationAnalysis.reason_keys, mem_sortKeys, List.mem_dedup]
  exact List.mem_filterMap.mpr ⟨r, hr, hk⟩

/-- C5 counterexample: one compensated row whose `compensation_reason` is
absent — `groupby` drops it, the breakdown is empty, and both weight columns
sum to 0, not 100. -/
theorem weights_sum_cex :
    exNoReason.total_compensation.isSome
    ∧ CompensationAnalysis.compensation_df [exNoReason] ≠ []
    ∧ ((CompensationAnalysis.compensation_by_reason [exNoReason]).map
        fun e => e.transaction_weight).sum ≠ 100
    ∧ ((CompensationAnalysis.compensation_by_reason [exNoReason]).map
        fun e => e.amount_weight).sum ≠ 100 := by
  have hempty : CompensationAnalysis.compensation_by_reason [exNoReason] = [] := by decide
  refine ⟨by decide, by decide, ?_, ?_⟩ <;> rw [hempty] <;> norm_num

/-- C5 amended: when every compensated row carries a present reason, the
transaction weights sum to exactly 100 (over exact rationals); when
additionally the total compensated amount is nonzero, the amount weights sum
to exactly 100 as well. -/
theorem weights_sum_100 (rows : List Row)
    (h1 : CompensationAnalysis.compensation_df rows ≠ [])
    (h2 : ∀ r ∈ CompensationAnalysis.compensation_df rows, r.compensation_reason.isSome) :
    ((CompensationAnalysis.compensation_by_reason rows).map
        fun e => e.transaction_weight).sum = 100
    ∧ (CompensationAnalysis.total_compensation rows ≠ 0 →
      ((CompensationAnalysis.compensation_by_reason rows).map
          fun e => e.amount_weight).sum = 100) := by
  have hnd := reason_keys_nodup rows
  have hcov := reason_keys_cover rows h2
  have hT : ((CompensationAnalysis.compensation_df rows).length : ℚ) ≠ 0 := by
    have : (CompensationAnalysis.compensation_df rows).length ≠ 0 :=
      fun hc => h1 (List.length_eq_zero.mp hc)
    exact_mod_cast this
  constructor
  · have hpart := sum_over_groups (fun r : Row => r.compensation_reason) (fun _ => (1 : ℚ))
      (CompensationAnalysis.reason_keys rows) (CompensationAnalysis.compensation_df rows)
      hnd hcov
    simp only [sum_map_one] at hpart
    calc ((CompensationAnalysis.compensation_by_reason rows).map
          fun e => e.transaction_weight).sum
        = ((CompensationAnalysis.reason_keys rows).map fun k =>
            ((CompensationAnalysis.reason_group rows k).length : ℚ)
              / (CompensationAnalysis.total_compensated_transactions rows : ℚ) * 100).sum := by
          rw [CompensationAnalysis.compensation_by_reason, List.map_map]
          rfl
      _ = ((CompensationAnalysis.reason_keys rows).map fun k =>
            ((CompensationAnalysis.reason_group rows k).length : ℚ)).sum
              / (CompensationAnalysis.total_compensated_transactions rows : ℚ) * 100 :=
          sum_map_div_mul _ _ _ _
      _ = 100 := by
          rw [show ((CompensationAnalysis.reason_keys rows).map fun k =>
              ((CompensationAnalysis.reason_group rows k).length : ℚ)).sum
              = ((CompensationAnalysis.compensation_df rows).length : ℚ) from hpart]
          rw [CompensationAnalysis.total_compensated_transactions]
          field_simp
  · intro hA
    have hpart := sum_over_groups (fun r : Row => r.compensation_reason)
      (fun r => r.total_compensation.getD 0)
      (CompensationAnalysis.reason_keys rows) (CompensationAnalysis.compensation_df rows)
      hnd hcov
    have htotal : CompensationAnalysis.total_compensation rows
        = ((CompensationAnalysis.compensation_df rows).map
            fun r => r.total_compensation.getD 0).sum := by
      rw [CompensationAnalysis.total_compensation, sum_filterMap_getD]
    calc ((CompensationAnalysis.compensation_by_reason rows).map
          fun e => e.amount_weight).sum
        = ((CompensationAnalysis.reason_keys rows).map fun k =>
            ((CompensationAnalysis.reason_group rows k).filterMap
              fun r => r.total_compensation).sum
              / CompensationAnalysis.total_compensation rows * 100).sum := by
          rw [CompensationAnalysis.compensation_by_reason, List.map_map]
          rfl
      _ = ((CompensationAnalysis.reason_keys rows).map fun k =>
            ((CompensationAnalysis.reason_group rows k).filterMap
              fun r => r.total_compensation).sum).sum
              / CompensationAnalysis.total_compensation rows * 100 :=
          sum_map_div_mul _ _ _ _
      _ = 100 := by
          rw [show ((CompensationAnalysis.reason_keys rows).map fun k =>
              ((CompensationAnalysis.reason_group rows k).filterMap
                fun r => r.total_compensation).sum).sum
              = CompensationAnalysis.total_compensation rows by
            rw [htotal, ← hpart]
            apply congrArg
            apply List.map_congr_left
            intro k _
            rw [CompensationAnalysis.reason_group, sum_filterMap_getD]]
          field_simp

/-- C5 witness: three compensated rows split 2/1 between reasons "B" and
"A"; both weight columns sum to 100. -/
theorem weights_sum_100_witness :
    CompensationAnalysis.compensation_df [exA, exB1, exB2] ≠ []
    ∧ (∀ r ∈ CompensationAnalysis.compensation_df [exA, exB1, exB2],
        r.compensation_reason.isSome)
    ∧ CompensationAnalysis.total_compensation [exA, exB1, exB2] ≠ 0
    ∧ ((CompensationAnalysis.compensation_by_reason [exA, exB1, exB2]).map
        fun e => e.transaction_weight).sum = 100
    ∧ ((CompensationAnalysis.compensation_by_reason [exA, exB1, exB2]).map
        fun e => e.amount_weight).sum = 100 := by
  have h1 : CompensationAnalysis.compensation_df [exA, exB1, exB2] ≠ [] := by decide
  have h2 : ∀ r ∈ CompensationAnalysis.compensation_df [exA, exB1, exB2],
      r.compensation_reason.isSome := by decide
  have hA : CompensationAnalysis.total_compensation [exA, exB1, exB2] ≠ 0 := by
    norm_num [CompensationAnalysis.total_compensation, CompensationAnalysis.compensation_df,
      List.filter_cons, List.filterMap_cons, exA, exB1, exB2, baseRow]
  have h := weights_sum_100 [exA, exB1, exB2] h1 h2
  exact ⟨h1, h2, hA, h.1, h.2 hA⟩

/-! ### C7: shape and ordering of the compensation-reason breakdown -/

/-- C7 counterexample: with reasons "A" (1 compensated row) and "B" (2), the
breakdown lists counts [1, 2] — group-key order, NOT sorted by descending
count. -/
theorem breakdown_not_sorted_cex :
    ((CompensationAnalysis.compensation_by_reason [exA, exB1, exB2]).map fun e => e.count)
      = [1, 2]
    ∧ ¬ List.Sorted (fun a b : ℕ => b ≤ a)
        ((CompensationAnalysis.compensation_by_reason [exA, exB1, exB2]).map
          fun e => e.count) := by
  have h : ((CompensationAnalysis.compensation_by_reason [exA, exB1, exB2]).map
      fun e => e.count) = [1, 2] := by decide
  refine ⟨h, ?_⟩
  rw [h]
  intro hs
  have := List.rel_of_sorted_cons hs 2 (by simp)
  omega

/-- C7 amended: in `compensation_analysis` the breakdown is computed over
exactly the compensated subset, grouped by present reason, with per-reason
count, total amount, mean amount (= total ÷ count) and the two
independently-weighted shares; its rows appear in group-key order, one per
distinct reason of the compensated subset. The descending-count sort happens
only in `sc_review.analyze_compensation_reasons`, which groups ALL rows with
a present reason (not the compensated subset). -/
theorem compensation_reason_breakdown (rows : List Row) :
    (∀ e ∈ CompensationAnalysis.compensation_by_reason rows,
      (∃ r ∈ CompensationAnalysis.compensation_df rows,
          r.compensation_reason = some e.compensation_reason)
      ∧ e.count = (CompensationAnalysis.reason_group rows e.compensation_reason).length
      ∧ e.total_amount
          = ((CompensationAnalysis.reason_group rows e.compensation_reason).filterMap
              fun r => r.total_compensation).sum
      ∧ e.avg_amount = some (e.total_amount / (e.count : ℚ))
      ∧ e.transaction_weight
          = (e.count : ℚ) / (CompensationAnalysis.total_compensated_transactions rows : ℚ) * 100
      ∧ e.amount_weight = e.total_amount / CompensationAnalysis.total_compensation rows * 100)
    ∧ (∀ k, (∃ r ∈ CompensationAnalysis.compensation_df rows, r.compensation_reason = some k) →
        ∃ e ∈ CompensationAnalysis.compensation_by_reason rows, e.compensation_reason = k)
    ∧ ((CompensationAnalysis.compensation_by_reason rows).map
        fun e => e.compensation_reason).Nodup
    ∧ List.Sorted (fun a b : SCReview.SCReasonEntry => b.count ≤ a.count)
        (SCReview.analyze_compensation_reasons rows) := by
  refine ⟨?_, ?_, ?_, ?_⟩
  · intro e he
    rw [CompensationAnalysis.compensation_by_reason] at he
    obtain ⟨k, hk, hmk⟩ := List.mem_map.mp he
    rw [CompensationAnalysis.reason_keys, mem_sortKeys, List.mem_dedup] at hk
    obtain ⟨r, hr, hreason⟩ := List.mem_filterMap.mp hk
    have hg_ne : CompensationAnalysis.reason_group rows k ≠ [] := by
      rw [CompensationAnalysis.reason_group]
      exact List.ne_nil_of_mem (List.mem_filter.mpr ⟨hr, by simp [hreason]⟩)
    have hisSome : ∀ x ∈ CompensationAnalysis.reason_group rows k,
        x.total_compensation.isSome := by
      intro x hx
      rw [CompensationAnalysis.reason_group] at hx
      exact compensation_df_isSome rows x (List.mem_of_mem_filter hx)
    have hlen : ((CompensationAnalysis.reason_group rows k).filterMap
        fun r => r.total_compensation).length
        = (CompensationAnalysis.reason_group rows k).length :=
      filterMap_length_of_isSome _ _ hisSome
    have hamounts_ne : (CompensationAnalysis.reason_group rows k).filterMap
        (fun r => r.total_compensation) ≠ [] := by
      intro hc
      apply hg_ne
      have := congrArg List.length hc
      rw [hlen] at this
      exact List.length_eq_zero.mp this
    rw [← hmk]
    refine ⟨⟨r, hr, hreason⟩, rfl, rfl, ?_, rfl, rfl⟩
    show listMean ((CompensationAnalysis.reason_group rows k).filterMap
        fun r => r.total_compensation) = _
    rw [listMean_eq_some _ hamounts_ne, hlen]
  · intro k hx
    obtain ⟨r, hr, hreason⟩ := hx
    have hkmem : k ∈ CompensationAnalysis.reason_keys rows := by
      rw [CompensationAnalysis.reason_keys, mem_sortKeys, List.mem_dedup]
      exact List.mem_filterMap.mpr ⟨r, hr, hreason⟩
    rw [CompensationAnalysis.compensation_by_reason]
    exact ⟨_, List.mem_map_of_mem _ hkmem, rfl⟩
  · rw [CompensationAnalysis.compensation_by_reason, List.map_map]
    exact (reason_keys_nodup rows).map fun a b h => h
  · haveI : IsTotal SCReview.SCReasonEntry (fun a b => b.count ≤ a.count) :=
      ⟨fun a b => Nat.le_total b.count a.count⟩
    haveI : IsTrans SCReview.SCReasonEntry (fun a b => b.count ≤ a.count) :=
      ⟨fun _ _ _ hab hbc => le_trans hbc hab⟩
    exact List.sorted_insertionSort _ _

/-- C7 witness: the amended statement evaluated on the three-row table with
reasons "A" (once) and "B" (twice). -/
theorem compensation_reason_breakdown_witness :
    (∃ r ∈ CompensationAnalysis.compensation_df [exA, exB1, exB2],
        r.compensation_reason = some "A")
    ∧ (∃ e ∈ CompensationAnalysis.compensation_by_reason [exA, exB1, exB2],
        e.compensation_reason = "A"
        ∧ e.count = (CompensationAnalysis.reason_group [exA, exB1, exB2] "A").length
        ∧ e.total_amount = ((CompensationAnalysis.reason_group [exA, exB1, exB2] "A").filterMap
            fun r => r.total_compensation).sum
        ∧ e.avg_amount = some (e.total_amount / (e.count : ℚ)))
    ∧ List.Sorted (fun a b : SCReview.SCReasonEntry => b.count ≤ a.count)
        (SCReview.analyze_compensation_reasons [exA, exB1, exB2]) := by
  have h := compensation_reason_breakdown [exA, exB1, exB2]
  have hx : ∃ r ∈ CompensationAnalysis.compensation_df [exA, exB1, exB2],
      r.compensation_reason = some "A" := ⟨exA, by decide, rfl⟩
  obtain ⟨e, he, hek⟩ := h.2.1 "A" hx
  have hprops := h.1 e he
  rw [hek] at hprops
  exact ⟨hx, ⟨e, he, hek, hprops.2.1, hprops.2.2.1, hprops.2.2.2.1⟩, h.2.2.2⟩
